import Mathlib

/-!
Verification development for the RivalOps per-target processing pipeline.

The definitions below are a shallow embedding of the Python sources:

* `packages/core/firecrawl_client.py` — content fetcher with bounded
  retry/backoff (`scrape_url`);
* `packages/core/ingestion.py` — content-addressed snapshot store
  (`ingest_target`);
* `packages/core/models.py` — persisted entities and the
  `ck_drift_score_range` check constraint;
* `packages/core/langgraph_workflow.py` — the LangGraph pipeline
  (`node_fetch_history`, `node_scrape`, `node_analyze`,
  `node_update_run_status`, `node_draft_briefing`, `node_human_gate`,
  `run_workflow_for_target`).

External collaborators (the HTTP endpoint and the language model) are
modelled as oracles supplied through an environment record; machine floats
are modelled as rationals; database sessions commit on node success and
roll back on node failure, so each embedded node either returns an updated
database or leaves it unchanged and reports the error, exactly as the
`get_session` context manager in `packages/core/db.py` behaves.
-/

namespace RivalOps

/-! Content fetcher (`firecrawl_client.py`). -/

/-- Shape of a decoded Firecrawl JSON body, restricted to the four places
`scrape_url` probes for textual content: `data.markdown`, `markdown`,
`data.content`, `content`.  A `none` models an absent key, `some ""` an
empty string value. -/
structure FirecrawlData where
  dataMarkdown : Option String
  markdown : Option String
  dataContent : Option String
  content : Option String
deriving DecidableEq

/-- Python `x or y` for an optional string `x`: `None` and `""` are falsy. -/
def orText (a : Option String) (b : String) : String :=
  match a with
  | some s => if s = "" then b else s
  | none => b

/-- Embedding of the content probe in `scrape_url`:
`data.get("data", {}).get("markdown") or data.get("markdown") or
 data.get("data", {}).get("content") or data.get("content") or ""`. -/
def probeText (d : FirecrawlData) : String :=
  orText d.dataMarkdown (orText d.markdown (orText d.dataContent (orText d.content "")))

/-- Outcome of one upstream POST, as classified by the try/except of
`scrape_url`: either a transport-level `httpx.HTTPError`, or a response
with a status code and decoded body. -/
inductive AttemptOutcome where
  | transportFailure
  | response (status : Nat) (body : FirecrawlData)

/-- Error taxonomy of `scrape_url` (all raised as `FirecrawlError`; the
constructors record which raise site fired and its diagnostic data).
`outOfFuel` is an artifact of embedding the `while True` loop with a fuel
counter; `scrape_url` supplies enough fuel that it is unreachable
(`scrape_go_no_fuel_exhaustion`). -/
inductive FetchFailure where
  | httpFailure (attempts : Nat)
  | emptyContent
  | transient (attempts : Nat) (lastCode : Nat)
  | upstream (code : Nat)
  | outOfFuel
deriving DecidableEq

/-- Successful scrape payload: the extracted markdown and the content hash
computed by `_hash_content` (the hash function is a parameter of the
embedding; only its determinism matters to the claims). -/
structure ScrapeResultM where
  content_markdown : String
  content_hash : String
deriving DecidableEq

/-- Observable trace of one `scrape_url` call: how many upstream attempts
were issued, the backoff sleeps performed (in order, in time units), and
the final result. -/
structure ScrapeTrace where
  attempts : Nat
  waits : List ℚ
  result : Except FetchFailure ScrapeResultM

/-- Status codes `scrape_url` treats as transient: 429, 500, 502, 503, 504. -/
def transientCodes : List Nat := [429, 500, 502, 503, 504]

/-- Embedding of the retry loop body of `scrape_url`.  `resp k` is the
outcome of the k-th upstream POST (attempts are numbered from 1, as in the
source).  Faithful points: a transport failure retries with NO sleep (the
`except` branch has no backoff); a transient status sleeps
`backoff_seconds * 2 ** (attempt - 1)` before retrying; empty content and
non-transient statuses raise immediately; any failure on attempt
`>= max_retries` raises. -/
def scrape_go (hashFn : String → String) (resp : Nat → AttemptOutcome)
    (max_retries : Nat) (backoff_seconds : ℚ) : Nat → Nat → ScrapeTrace
  | 0, _ => ⟨0, [], .error .outOfFuel⟩
  | fuel + 1, attempt =>
    match resp attempt with
    | .transportFailure =>
      if max_retries ≤ attempt then
        ⟨1, [], .error (.httpFailure attempt)⟩
      else
        let t := scrape_go hashFn resp max_retries backoff_seconds fuel (attempt + 1)
        ⟨t.attempts + 1, t.waits, t.result⟩
    | .response status body =>
      if status = 200 then
        let content_md := probeText body
        if content_md = "" then
          ⟨1, [], .error .emptyContent⟩
        else
          ⟨1, [], .ok ⟨content_md, hashFn content_md⟩⟩
      else if status ∈ transientCodes then
        if max_retries ≤ attempt then
          ⟨1, [], .error (.transient attempt status)⟩
        else
          let wait_time := backoff_seconds * 2 ^ (attempt - 1)
          let t := scrape_go hashFn resp max_retries backoff_seconds fuel (attempt + 1)
          ⟨t.attempts + 1, wait_time :: t.waits, t.result⟩
      else
        ⟨1, [], .error (.upstream status)⟩

/-- Embedding of `scrape_url`: run the loop from attempt 1 with fuel
`max_retries + 1`, which `scrape_go_no_fuel_exhaustion` shows is enough. -/
def scrape_url (hashFn : String → String) (resp : Nat → AttemptOutcome)
    (max_retries : Nat) (backoff_seconds : ℚ) : ScrapeTrace :=
  scrape_go hashFn resp max_retries backoff_seconds (max_retries + 1) 1

/-- The loop recurses only while `attempt < max_retries`, so with fuel
exceeding `max_retries - attempt` the fuel-exhaustion sentinel never
appears. -/
theorem scrape_go_no_fuel_exhaustion (hashFn : String → String)
    (resp : Nat → AttemptOutcome) (max_retries : Nat) (backoff_seconds : ℚ) :
    ∀ fuel attempt, max_retries - attempt < fuel →
      (scrape_go hashFn resp max_retries backoff_seconds fuel attempt).result ≠
        .error .outOfFuel := by
  intro fuel
  induction fuel with
  | zero => intro attempt h; omega
  | succ n ih =>
    intro attempt h
    simp only [scrape_go]
    cases resp attempt with
    | transportFailure =>
      by_cases hle : max_retries ≤ attempt
      · simp [hle]
      · simp only [hle, if_false]
        exact ih (attempt + 1) (by omega)
    | response status body =>
      by_cases h200 : status = 200
      · by_cases hemp : probeText body = ""
        · simp [h200, hemp]
        · simp [h200, hemp]
      · by_cases htr : status ∈ transientCodes
        · by_cases hle : max_retries ≤ attempt
          · simp [h200, htr, hle]
          · simp only [h200, htr, hle, if_false, if_true]
            exact ih (attempt + 1) (by omega)
        · simp [h200, htr]

/-- The fetcher never runs the loop body more than
`max max_retries 1` times: every failure on an attempt numbered
`>= max_retries` raises instead of retrying. -/
theorem scrape_go_attempts_le (hashFn : String → String)
    (resp : Nat → AttemptOutcome) (max_retries : Nat) (backoff_seconds : ℚ) :
    ∀ fuel attempt, 1 ≤ attempt →
      (scrape_go hashFn resp max_retries backoff_seconds fuel attempt).attempts ≤
        max_retries - attempt + 1 := by
  intro fuel
  induction fuel with
  | zero => intro attempt _; simp [scrape_go]
  | succ n ih =>
    intro attempt h1
    simp only [scrape_go]
    cases resp attempt with
    | transportFailure =>
      by_cases hle : max_retries ≤ attempt
      · simp [hle]
      · simp only [hle, if_false]
        have := ih (attempt + 1) (by omega)
        omega
    | response status body =>
      by_cases h200 : status = 200
      · by_cases hemp : probeText body = ""
        · simp [h200, hemp]
        · simp [h200, hemp]
      · by_cases htr : status ∈ transientCodes
        · by_cases hle : max_retries ≤ attempt
          · simp [h200, htr, hle]
          · simp only [h200, htr, hle, if_false, if_true]
            have := ih (attempt + 1) (by omega)
            omega
        · simp [h200, htr]

/-- When every upstream attempt yields the same transient status code, the
loop started at attempt `k + 1 ≤ max_retries` makes the remaining
`max_retries - k` attempts, sleeps `backoff * 2 ^ i` for
`i = k, …, max_retries - 2` between them, and raises the transient
failure carrying `max_retries` attempts. -/
theorem scrape_go_const_transient (hashFn : String → String) (body : FirecrawlData)
    (code : Nat) (hmem : code ∈ transientCodes) (h200 : code ≠ 200)
    (max_retries : Nat) (backoff_seconds : ℚ) :
    ∀ fuel k, k < max_retries → max_retries - (k + 1) < fuel →
      scrape_go hashFn (fun _ => .response code body) max_retries backoff_seconds
          fuel (k + 1) =
        ⟨max_retries - k,
         (List.range' k (max_retries - k - 1)).map (fun i => backoff_seconds * 2 ^ i),
         .error (.transient max_retries code)⟩ := by
  intro fuel
  induction fuel with
  | zero => intro k hk hf; omega
  | succ n ih =>
    intro k hk hf
    simp only [scrape_go, h200, if_false, hmem, if_true]
    by_cases hlast : max_retries ≤ k + 1
    · have hkeq : max_retries = k + 1 := by omega
      subst hkeq
      simp [List.range']
    · have hrec := ih (k + 1) (by omega) (by omega)
      simp only [hlast, if_false]
      rw [hrec]
      have hlen : max_retries - k - 1 = (max_retries - (k + 1) - 1) + 1 := by omega
      have hatt : max_retries - k = (max_retries - (k + 1)) + 1 := by omega
      rw [hlen, hatt, List.range'_succ]
      simp

/-- When every upstream attempt fails at the transport level, the loop
started at attempt `k + 1 ≤ max_retries` makes the remaining attempts with
NO backoff sleep at all and raises the HTTP failure after `max_retries`
attempts: the `except httpx.HTTPError` branch of `scrape_url` has no
`asyncio.sleep` call. -/
theorem scrape_go_const_transport (hashFn : String → String)
    (max_retries : Nat) (backoff_seconds : ℚ) :
    ∀ fuel k, k < max_retries → max_retries - (k + 1) < fuel →
      scrape_go hashFn (fun _ => .transportFailure) max_retries backoff_seconds
          fuel (k + 1) =
        ⟨max_retries - k, [], .error (.httpFailure max_retries)⟩ := by
  intro fuel
  induction fuel with
  | zero => intro k hk hf; omega
  | succ n ih =>
    intro k hk hf
    simp only [scrape_go]
    by_cases hlast : max_retries ≤ k + 1
    · have hkeq : max_retries = k + 1 := by omega
      subst hkeq
      simp
    · have hrec := ih (k + 1) (by omega) (by omega)
      simp only [hlast, if_false]
      rw [hrec]
      have hatt : max_retries - k = (max_retries - (k + 1)) + 1 := by omega
      rw [hatt]

/-- Response body with no textual content anywhere. -/
def emptyBody : FirecrawlData := ⟨none, none, none, none⟩

/-- Counterexample to claim C5 as stated: the fetcher does not wait before
EVERY retry of a retryable failure. with `max_retries = 3` and `backoff_seconds = 2`,
a transport failure on attempt 1 followed by a successful attempt 2 is
retried immediately — the trace shows 2 attempts, a successful result, and
an EMPTY list of waits, where the claim demands a wait of
`2 * 2 ^ 0 = 2` time units before attempt 2. -/
theorem transport_retry_without_wait :
    scrape_url id
        (fun n => if n = 1 then .transportFailure
                  else .response 200 ⟨some "x", none, none, none⟩) 3 2 =
      ⟨2, [], .ok ⟨"x", "x"⟩⟩ := by
  simp [scrape_url, scrape_go, probeText, orText]

/-- Claim C5 (amended): retry policy of `scrape_url`, as the code
implements it.  With `max_retries ≥ 1`:
1. no call ever issues more than `max_retries` upstream attempts;
2. a stub answering a fixed transient status (for example 503) on every
   attempt makes exactly `max_retries` attempts, raises the transient
   failure, and the i-th backoff sleep (before attempt i+1, counting from
   i = 1) lasts `backoff_seconds * 2 ^ (i - 1)` time units — equivalently
   the delay before attempt k is `backoff_seconds * 2 ^ (k - 2)` — with no
   sleep after the final attempt;
3. a stub failing at the transport level on every attempt also makes
   exactly `max_retries` attempts and raises, but performs NO backoff
   sleep before those retries. -/
theorem scrape_url_retry_policy (hashFn : String → String)
    (max_retries : Nat) (backoff_seconds : ℚ) (hpos : 1 ≤ max_retries) :
    (∀ resp, (scrape_url hashFn resp max_retries backoff_seconds).attempts ≤ max_retries)
    ∧ (∀ body code, code ∈ transientCodes → code ≠ 200 →
        scrape_url hashFn (fun _ => .response code body) max_retries backoff_seconds =
          ⟨max_retries,
           (List.range (max_retries - 1)).map (fun i => backoff_seconds * 2 ^ i),
           .error (.transient max_retries code)⟩)
    ∧ scrape_url hashFn (fun _ => .transportFailure) max_retries backoff_seconds =
        ⟨max_retries, [], .error (.httpFailure max_retries)⟩ := by
  refine ⟨?_, ?_, ?_⟩
  · intro resp
    have h := scrape_go_attempts_le hashFn resp max_retries backoff_seconds
      (max_retries + 1) 1 le_rfl
    unfold scrape_url
    omega
  · intro body code hmem h200
    have h := scrape_go_const_transient hashFn body code hmem h200
      max_retries backoff_seconds (max_retries + 1) 0 (by omega) (by omega)
    unfold scrape_url
    rw [h]
    simp [List.range_eq_range']
  · have h := scrape_go_const_transport hashFn max_retries backoff_seconds
      (max_retries + 1) 0 (by omega) (by omega)
    unfold scrape_url
    rw [h]
    simp

/-- Witness for `scrape_url_retry_policy` at `max_retries = 3`,
`backoff_seconds = 2`: the always-503 stub fails after exactly 3 attempts
with waits 2 and 4, and the always-transport stub fails after 3 attempts
with no waits. -/
theorem scrape_url_retry_policy_witness :
    (1 ≤ 3)
    ∧ scrape_url id (fun _ => .response 503 emptyBody) 3 2 =
        ⟨3, (List.range 2).map (fun i => (2 : ℚ) * 2 ^ i), .error (.transient 3 503)⟩
    ∧ scrape_url id (fun _ => .transportFailure) 3 2 =
        ⟨3, [], .error (.httpFailure 3)⟩ := by
  refine ⟨by norm_num, ?_, ?_⟩
  · exact (scrape_url_retry_policy id 3 2 (by norm_num)).2.1 emptyBody 503
      (by decide) (by decide)
  · exact (scrape_url_retry_policy id 3 2 (by norm_num)).2.2

/-- Helper: the Python falsy chain step yields "" exactly when the
optional field is absent or empty AND the fallback is "". -/
theorem orText_eq_empty (a : Option String) (b : String) :
    orText a b = "" ↔ (a = none ∨ a = some "") ∧ b = "" := by
  cases a with
  | none => simp [orText]
  | some s => by_cases hs : s = "" <;> simp [orText, hs]

/-- Claim C7: on a 200 response, `scrape_url` probes both response shapes
(`data.markdown` / `markdown` and `data.content` / `content`); if none of
the four locations yields non-empty text it raises the empty-content
failure immediately — one attempt, no backoff sleep, no retry, whatever
`max_retries` remains.  Part two characterises the probe: it comes up
empty exactly when every one of the four probed locations is absent or
empty. -/
theorem empty_content_is_permanent :
    (∀ (hashFn : String → String) (resp : Nat → AttemptOutcome)
        (max_retries : Nat) (backoff_seconds : ℚ) (d : FirecrawlData),
        resp 1 = .response 200 d → probeText d = "" →
        scrape_url hashFn resp max_retries backoff_seconds =
          ⟨1, [], .error .emptyContent⟩)
    ∧ (∀ d : FirecrawlData, probeText d = "" ↔
        ((d.dataMarkdown = none ∨ d.dataMarkdown = some "")
         ∧ (d.markdown = none ∨ d.markdown = some "")
         ∧ (d.dataContent = none ∨ d.dataContent = some "")
         ∧ (d.content = none ∨ d.content = some ""))) := by
  constructor
  · intro hashFn resp maxR b d hresp hempty
    unfold scrape_url
    simp only [scrape_go, hresp]
    simp [hempty]
  · intro d
    simp [probeText, orText_eq_empty, and_assoc]

/-- Witness for `empty_content_is_permanent`: a stub answering 200 with a
body whose four probed locations are all absent fails with the
empty-content error on the first attempt even though 2 more attempts were
allowed. -/
theorem empty_content_is_permanent_witness :
    scrape_url id (fun _ => .response 200 emptyBody) 3 2 =
      ⟨1, [], .error .emptyContent⟩ :=
  empty_content_is_permanent.1 id _ 3 2 emptyBody rfl rfl

/-! Persisted entities (`models.py`) and database state. -/

/-- String constants of `models.RunStatusEnum`. -/
def RunStatusEnum.SUCCESS : String := "success"

/-- Run status for a no-change decision. -/
def RunStatusEnum.NO_CHANGE : String := "no_change"

/-- Run status for a drift decision. -/
def RunStatusEnum.DRIFT : String := "drift"

/-- Run status for an errored run, declared in `models.py`. -/
def RunStatusEnum.ERROR : String := "error"

/-- String constants of `models.AnalysisDecisionEnum`. -/
def AnalysisDecisionEnum.NO_CHANGE : String := "no_change"

/-- Decision string for drift. -/
def AnalysisDecisionEnum.DRIFT : String := "drift"

/-- String constant of `models.ReviewStatusEnum` used by the pipeline. -/
def ReviewStatusEnum.PENDING : String := "pending"

/-- Row of the `targets` table (the fields the pipeline reads). -/
structure Target where
  id : Nat
  competitor_id : Nat
  url : String
  label : String
  enabled : Bool
deriving DecidableEq

/-- Row of the `snapshots` table. -/
structure Snapshot where
  id : Nat
  target_id : Nat
  fetched_at : Nat
  content_hash : String
  content_markdown : String
deriving DecidableEq

/-- Row of the `runs` table.  Timestamps are abstract ticks. -/
structure Run where
  id : Nat
  target_id : Nat
  snapshot_id : Option Nat
  started_at : Nat
  ended_at : Option Nat
  status : String
  error_message : Option String
  attempt : Nat
deriving DecidableEq

/-- Row of the `analyses` table.  The three list fields embed
`diff_summary_json`. -/
structure Analysis where
  id : Nat
  run_id : Nat
  model : String
  drift_score : ℚ
  decision : String
  rationale : String
  change_types : List String
  evidence : List String
  recommended_followups : List String
deriving DecidableEq

/-- Row of the `briefings` table (the fields the pipeline writes). -/
structure Briefing where
  id : Nat
  run_id : Nat
  title : String
  executive_summary : String
  details_markdown : String
  risk_level : String
  review_status : String
deriving DecidableEq

/-- Relational state: one list per table.  Fresh primary keys are
`length + 1`, monotone because the pipeline only appends. -/
structure DB where
  targets : List Target
  snapshots : List Snapshot
  runs : List Run
  analyses : List Analysis
  briefings : List Briefing
deriving DecidableEq

/-- Embedding of flushing a new `Analysis` row: the database enforces
`ck_drift_score_range` (`drift_score >= 0.0 AND drift_score <= 1.0`,
declared in `models.py` and migration `0001_initial`), so the insert
succeeds only for scores inside [0, 1] and otherwise the session raises
and rolls back. -/
def insertAnalysis (db : DB) (a : Analysis) : Except String DB :=
  if 0 ≤ a.drift_score ∧ a.drift_score ≤ 1 then
    .ok { db with analyses := db.analyses ++ [a] }
  else
    .error "IntegrityError: ck_drift_score_range"

/-! Workflow state and environment (`langgraph_workflow.py`). -/

/-- The `WorkflowState` dataclass. -/
structure WorkflowState where
  target_id : Nat
  run_id : Option Nat := none
  snapshot_id : Option Nat := none
  decision : Option String := none
  drift_score : Option ℚ := none
  analysis_id : Option Nat := none
  briefing_id : Option Nat := none
deriving DecidableEq

/-- Parsed JSON object returned by an analysis model call: the keys
`node_analyze` reads, each optional because the code supplies defaults via
`result.get`. -/
structure LLMAnalysisResult where
  decision : Option String := none
  drift_score : Option ℚ := none
  change_types : List String := []
  evidence : List String := []
  recommended_followups : List String := []
deriving DecidableEq

/-- Parsed JSON object returned by the briefing model call, keys as read
by `node_draft_briefing` (`None` and `""` both fall back to defaults). -/
structure LLMBriefingResult where
  title : Option String := none
  executive_summary : Option String := none
  details_markdown : Option String := none
  risk_level : Option String := none
deriving DecidableEq

/-- Environment of one workflow invocation: the external collaborators
and configuration read from `settings`.  `llm_analyst m` is the parsed
JSON the analysis model `m` answers with for the (fixed) prompt of this
run, or a raised error; `llm_briefing` likewise for the drafting call;
`scrape_outcome` is the result of `scrape_url(target.url)` inside
`ingest_target`; `now` is the clock tick `datetime.utcnow()` returns. -/
structure WorkflowEnv where
  openai_configured : Bool
  llm_analyst : String → Except String LLMAnalysisResult
  llm_briefing : Except String LLMBriefingResult
  openai_model_fast : String
  openai_model_smart : String
  scrape_outcome : Except String ScrapeResultM
  now : Nat

/-- Result of one node: the list of LLM model identifiers it invoked (an
observation of its calls, in order), and either the updated state and
committed database or the raised error with the database rolled back to
the state before the node. -/
abbrev NodeResult : Type := List String × Except String (WorkflowState × DB)

/-- Embedding of `_call_llm_analyst`: raises before any call when no
OpenAI client is configured, otherwise performs exactly one call against
the given model. -/
def call_llm_analyst (env : WorkflowEnv) (model : String) :
    List String × Except String LLMAnalysisResult :=
  if env.openai_configured then ([model], env.llm_analyst model)
  else ([], .error "OpenAI client not configured (OPENAI_API_KEY missing)")

/-! Snapshot store (`ingestion.py`). -/

/-- Embedding of `ingest_target`: look the target up (raise `ValueError`
if absent), scrape its URL, then either return the existing snapshot for
`(target_id, content_hash)` without writing, or persist a new snapshot
row stamped with the current tick. -/
def ingest_target (env : WorkflowEnv) (db : DB) (target_id : Nat) :
    Except String (Snapshot × DB) :=
  match db.targets.find? (fun t => t.id == target_id) with
  | none => .error "Target not found"
  | some t =>
    match env.scrape_outcome with
    | .error e => .error e
    | .ok scrape =>
      match db.snapshots.find?
          (fun s => s.target_id == t.id && s.content_hash == scrape.content_hash) with
      | some existing_snapshot => .ok (existing_snapshot, db)
      | none =>
        let snapshot : Snapshot :=
          { id := db.snapshots.length + 1
            target_id := t.id
            fetched_at := env.now
            content_hash := scrape.content_hash
            content_markdown := scrape.content_markdown }
        .ok (snapshot, { db with snapshots := db.snapshots ++ [snapshot] })

/-! Workflow nodes (`langgraph_workflow.py`). -/

/-- Embedding of `node_fetch_history`: require the target, then create the
Run row with `status=RunStatusEnum.SUCCESS`, `attempt=1`, `started_at`
now, and record its id in the state. -/
def node_fetch_history (env : WorkflowEnv) (state : WorkflowState) (db : DB) :
    NodeResult :=
  match db.targets.find? (fun t => t.id == state.target_id) with
  | none => ([], .error "Target not found")
  | some t =>
    let run : Run :=
      { id := db.runs.length + 1
        target_id := t.id
        snapshot_id := none
        started_at := env.now
        ended_at := none
        status := RunStatusEnum.SUCCESS
        error_message := none
        attempt := 1 }
    ([], .ok ({ state with run_id := some run.id },
              { db with runs := db.runs ++ [run] }))

/-- Embedding of `node_scrape`: ingest the target and record the snapshot
id in the in-memory state (and only there). -/
def node_scrape (env : WorkflowEnv) (state : WorkflowState) (db : DB) :
    NodeResult :=
  match ingest_target env db state.target_id with
  | .error e => ([], .error e)
  | .ok (snapshot, db') =>
    ([], .ok ({ state with snapshot_id := some snapshot.id }, db'))

/-- Embedding of lines 140–154 of `node_analyze`: call the fast model,
default the decision to `"no_change"` and the score to `0.0`, and when
the score lies in the closed gray zone `[0.45, 0.65]` AND the smart model
differs from the fast one, call the smart model and let its fields
overwrite decision and score (each only when present).  Returns the
models called, and the final decision, final score, and the last bound
`result` (whose summary fields get persisted). -/
def analyze_llm_phase (env : WorkflowEnv) :
    List String × Except String (String × ℚ × LLMAnalysisResult) :=
  match call_llm_analyst env env.openai_model_fast with
  | (calls₁, .error e) => (calls₁, .error e)
  | (calls₁, .ok result) =>
    let decision := result.decision.getD AnalysisDecisionEnum.NO_CHANGE
    let drift_score := result.drift_score.getD 0
    if 0.45 ≤ drift_score ∧ drift_score ≤ 0.65 ∧
        env.openai_model_smart ≠ env.openai_model_fast then
      match call_llm_analyst env env.openai_model_smart with
      | (calls₂, .error e) => (calls₁ ++ calls₂, .error e)
      | (calls₂, .ok result₂) =>
        let decision₂ := result₂.decision.getD decision
        let drift_score₂ := result₂.drift_score.getD drift_score
        (calls₁ ++ calls₂, .ok (decision₂, drift_score₂, result₂))
    else
      (calls₁, .ok (decision, drift_score, result))

/-- Embedding of `node_analyze`: require `snapshot_id` and `run_id`, look
the snapshot up, run the two-tier LLM phase, then persist the Analysis
row.  The stored `model` field reproduces the source expression
`smart_model if 0.45 <= drift_score <= 0.65 else fast_model`, evaluated
on the FINAL drift score.  (The history snippets feed only the prompt,
which the LLM oracle already abstracts.)  The Analysis row constructed by
`node_analyze` is factored out as `mkAnalysis`. -/
def mkAnalysis (env : WorkflowEnv) (db : DB) (run_id : Nat) (decision : String)
    (drift_score : ℚ) (result : LLMAnalysisResult) : Analysis :=
  { id := db.analyses.length + 1
    run_id := run_id
    model := if 0.45 ≤ drift_score ∧ drift_score ≤ 0.65 then
               env.openai_model_smart
             else env.openai_model_fast
    drift_score := drift_score
    decision := decision
    rationale := "LLM analysis of semantic changes"
    change_types := result.change_types
    evidence := result.evidence
    recommended_followups := result.recommended_followups }

def node_analyze (env : WorkflowEnv) (state : WorkflowState) (db : DB) :
    NodeResult :=
  match state.snapshot_id, state.run_id with
  | some snapshot_id, some run_id =>
    match db.snapshots.find? (fun s => s.id == snapshot_id) with
    | none => ([], .error "Snapshot not found")
    | some _snapshot =>
      match analyze_llm_phase env with
      | (calls, .error e) => (calls, .error e)
      | (calls, .ok (decision, drift_score, result)) =>
        let analysis : Analysis := mkAnalysis env db run_id decision drift_score result
        match insertAnalysis db analysis with
        | .error e => (calls, .error e)
        | .ok db' =>
          (calls, .ok ({ state with
                           analysis_id := some analysis.id
                           decision := some decision
                           drift_score := some drift_score }, db'))
  | _, _ => ([], .error "snapshot_id and run_id required before analysis")

/-- Embedding of `node_update_run_status`: require `run_id`, look the run
up, set `ended_at`, and map the in-memory decision string onto a status:
`"drift"` to DRIFT, `"no_change"` to NO_CHANGE, anything else (including
a missing decision) to SUCCESS. -/
def node_update_run_status (env : WorkflowEnv) (state : WorkflowState) (db : DB) :
    NodeResult :=
  match state.run_id with
  | none => ([], .error "run_id is required")
  | some run_id =>
    match db.runs.find? (fun r => r.id == run_id) with
    | none => ([], .error "Run not found")
    | some _run =>
      let status :=
        if state.decision = some AnalysisDecisionEnum.DRIFT then
          RunStatusEnum.DRIFT
        else if state.decision = some AnalysisDecisionEnum.NO_CHANGE then
          RunStatusEnum.NO_CHANGE
        else
          RunStatusEnum.SUCCESS
      let db' :=
        { db with runs :=
            db.runs.map (fun r =>
              if r.id == run_id then
                { r with ended_at := some env.now, status := status }
              else r) }
      ([], .ok (state, db'))

/-- Embedding of `node_draft_briefing`: require ids, look snapshot,
analysis and target up, require the OpenAI client, call the briefing
model (always the fast model), apply the falsy-aware defaults, and
persist the Briefing row with `review_status=pending`. -/
def node_draft_briefing (env : WorkflowEnv) (state : WorkflowState) (db : DB) :
    NodeResult :=
  match state.snapshot_id, state.analysis_id, state.run_id with
  | some snapshot_id, some analysis_id, some run_id =>
    match db.snapshots.find? (fun s => s.id == snapshot_id),
          db.analyses.find? (fun a => a.id == analysis_id) with
    | some snapshot, some _analysis =>
      match db.targets.find? (fun t => t.id == snapshot.target_id) with
      | none => ([], .error "Missing snapshot, analysis, or target")
      | some _target =>
        if env.openai_configured then
          match env.llm_briefing with
          | .error e => ([env.openai_model_fast], .error e)
          | .ok data =>
            let briefing : Briefing :=
              { id := db.briefings.length + 1
                run_id := run_id
                title := orText data.title "Competitor update"
                executive_summary := orText data.executive_summary ""
                details_markdown := orText data.details_markdown ""
                risk_level := orText data.risk_level "medium"
                review_status := ReviewStatusEnum.PENDING }
            ([env.openai_model_fast],
             .ok ({ state with briefing_id := some briefing.id },
                  { db with briefings := db.briefings ++ [briefing] }))
        else
          ([], .error "OpenAI client not configured (OPENAI_API_KEY missing)")
    | _, _ => ([], .error "Missing snapshot, analysis, or target")
  | _, _, _ => ([], .error "snapshot_id, analysis_id, and run_id required before drafting")

/-- Embedding of `node_human_gate`: only require that a briefing exists. -/
def node_human_gate (_env : WorkflowEnv) (state : WorkflowState) (db : DB) :
    NodeResult :=
  match state.briefing_id with
  | none => ([], .error "briefing_id required for human gate")
  | some _ => ([], .ok (state, db))

/-! Pipeline composition (`build_workflow_graph` and `run_workflow_for_target`). -/

/-- Outcome of one pipeline invocation: all LLM calls made, the final
state or the raised error, and the committed database. -/
structure WorkflowOutcome where
  calls : List String
  result : Except String WorkflowState
  db : DB

/-- Sequential execution of a node chain: on a node failure the error
propagates (there is no except-handler in `run_workflow_for_target`) and
the database keeps only what earlier nodes committed. -/
def run_nodes (nodes : List (WorkflowState → DB → NodeResult))
    (state : WorkflowState) (db : DB) : WorkflowOutcome :=
  match nodes with
  | [] => ⟨[], .ok state, db⟩
  | node :: rest =>
    match node state db with
    | (calls, .error e) => ⟨calls, .error e, db⟩
    | (calls, .ok (state', db')) =>
      let o := run_nodes rest state' db'
      ⟨calls ++ o.calls, o.result, o.db⟩

/-- The node chain of `build_workflow_graph`.  Faithful point: the edge
from `update_run_status` to `draft_briefing` is added with `add_edge`,
i.e. UNCONDITIONALLY — despite the adjacent comment about branching,
there is no conditional edge, so drafting follows even for a no-change
decision. -/
def workflow_nodes (env : WorkflowEnv) :
    List (WorkflowState → DB → NodeResult) :=
  [node_fetch_history env, node_scrape env, node_analyze env,
   node_update_run_status env, node_draft_briefing env, node_human_gate env]

/-- Embedding of `run_workflow_for_target`: compile the graph and invoke
it on a fresh `WorkflowState` for the target. -/
def run_workflow_for_target (env : WorkflowEnv) (db : DB) (target_id : Nat) :
    WorkflowOutcome :=
  run_nodes (workflow_nodes env) { target_id := target_id } db

/-! Concrete fixtures for the end-to-end evaluations. -/

/-- A single enabled target. -/
def target₀ : Target := ⟨1, 1, "https://example.com/pricing", "Pricing page", true⟩

/-- Initial database: one target, nothing else. -/
def db₀ : DB := ⟨[target₀], [], [], [], []⟩

/-- A successful scrape payload. -/
def scrapeOk : ScrapeResultM := ⟨"# Pricing", "hash-1"⟩

/-- Analyst model stub answering a fixed decision and score to every
model. -/
def analystStub (dec : String) (score : ℚ) :
    String → Except String LLMAnalysisResult :=
  fun _ => .ok { decision := some dec, drift_score := some score }

/-- Briefing model stub. -/
def briefingStub : Except String LLMBriefingResult :=
  .ok { title := some "New pricing tiers"
        executive_summary := some "- prices changed"
        details_markdown := some "What changed: prices."
        risk_level := some "high" }

/-- Environment of a run whose analyst answers decision `no_change` with
score 0.1 (clearly outside the gray zone). -/
def envNoChange : WorkflowEnv :=
  { openai_configured := true
    llm_analyst := analystStub "no_change" 0.1
    llm_briefing := briefingStub
    openai_model_fast := "gpt-4o-mini"
    openai_model_smart := "gpt-4o"
    scrape_outcome := .ok scrapeOk
    now := 7 }

/-- Claim C1, evaluated at the failing input: a run whose analyst decides
`no_change` ends with Run status NO_CHANGE as claimed, but the pipeline
does NOT stop — the unconditional `add_edge("update_run_status",
"draft_briefing")` carries it on, the briefing model is still called, and
one Briefing row with review status pending IS created for the no-change
run. -/
theorem no_change_still_drafts_briefing :
    (run_workflow_for_target envNoChange db₀ 1).db.runs.map Run.status =
      [RunStatusEnum.NO_CHANGE]
    ∧ (run_workflow_for_target envNoChange db₀ 1).db.briefings.map
        Briefing.review_status = [ReviewStatusEnum.PENDING]
    ∧ (run_workflow_for_target envNoChange db₀ 1).calls =
        ["gpt-4o-mini", "gpt-4o-mini"] := by
  norm_num [run_workflow_for_target, workflow_nodes, run_nodes,
    node_fetch_history, node_scrape, node_analyze, mkAnalysis,
    node_update_run_status,
    node_draft_briefing, node_human_gate, ingest_target, call_llm_analyst,
    analyze_llm_phase, insertAnalysis, analystStub, briefingStub, envNoChange,
    db₀, target₀, scrapeOk, orText, List.find?, RunStatusEnum.NO_CHANGE,
    RunStatusEnum.SUCCESS, RunStatusEnum.DRIFT, AnalysisDecisionEnum.DRIFT,
    AnalysisDecisionEnum.NO_CHANGE, ReviewStatusEnum.PENDING]
  decide

/-- Environment of a run whose scrape fails after exhausting its retries.
The LLM stubs are never reached. -/
def envScrapeFails : WorkflowEnv :=
  { envNoChange with
      scrape_outcome :=
        .error "Firecrawl transient errors after 3 attempts, last code 503" }

/-- Claim C2, evaluated at the failing input: when the scrape step fails,
`run_workflow_for_target` has no except-handler and nothing finalizes the
Run — the invocation ends with the raised error while the Run row keeps
its creation-time status `success` (never `error`), a null `ended_at` and
a null `error_message`.  The Run rests in a non-terminal state and the
captured message is nowhere. -/
theorem run_left_open_on_failure :
    (run_workflow_for_target envScrapeFails db₀ 1).result =
      .error "Firecrawl transient errors after 3 attempts, last code 503"
    ∧ (run_workflow_for_target envScrapeFails db₀ 1).db.runs.map Run.status =
        [RunStatusEnum.SUCCESS]
    ∧ (run_workflow_for_target envScrapeFails db₀ 1).db.runs.map Run.ended_at =
        [none]
    ∧ (run_workflow_for_target envScrapeFails db₀ 1).db.runs.map
        Run.error_message = [none]
    ∧ (run_workflow_for_target envScrapeFails db₀ 1).db.snapshots = []
    ∧ (run_workflow_for_target envScrapeFails db₀ 1).db.analyses = [] := by
  norm_num [run_workflow_for_target, workflow_nodes, run_nodes,
    node_fetch_history, node_scrape, ingest_target, envScrapeFails,
    envNoChange, db₀, target₀, List.find?, RunStatusEnum.SUCCESS]

/-- Environment of a run whose fast model answers drift 0.5 (gray zone)
and whose smart model answers drift 0.8 — the escalation scenario of the
spec (scenario C). -/
def envEscalates : WorkflowEnv :=
  { envNoChange with
      llm_analyst := fun model =>
        if model = "gpt-4o" then
          .ok { decision := some "drift", drift_score := some 0.8 }
        else
          .ok { decision := some "drift", drift_score := some 0.5 } }

/-- Claim C3, evaluated at the failing input: fast score 0.5 escalates and
the smart model (`gpt-4o`) produces the final decision drift with score
0.8 — both models were called, the final score 0.8 and decision drift are
persisted — yet the stored model identifier is that of the FAST model, because
the source picks `smart_model if 0.45 <= drift_score <= 0.65 else
fast_model` on the post-escalation score (0.8 is outside the gray zone).
The record claims a model that did not produce the final decision. -/
theorem stored_model_not_deciding_model :
    (run_workflow_for_target envEscalates db₀ 1).calls =
      ["gpt-4o-mini", "gpt-4o", "gpt-4o-mini"]
    ∧ (run_workflow_for_target envEscalates db₀ 1).db.analyses.map
        Analysis.model = ["gpt-4o-mini"]
    ∧ (run_workflow_for_target envEscalates db₀ 1).db.analyses.map
        Analysis.drift_score = [0.8]
    ∧ (run_workflow_for_target envEscalates db₀ 1).db.analyses.map
        Analysis.decision = ["drift"]
    ∧ (run_workflow_for_target envEscalates db₀ 1).db.runs.map Run.status =
        [RunStatusEnum.DRIFT]
    ∧ (run_workflow_for_target envEscalates db₀ 1).db.briefings.map
        Briefing.review_status = [ReviewStatusEnum.PENDING] := by
  norm_num +decide [run_workflow_for_target, workflow_nodes, run_nodes,
    node_fetch_history, node_scrape, node_analyze, mkAnalysis,
    node_update_run_status,
    node_draft_briefing, node_human_gate, ingest_target, call_llm_analyst,
    analyze_llm_phase, insertAnalysis, briefingStub, envEscalates,
    envNoChange, db₀, target₀, scrapeOk, orText, List.find?,
    RunStatusEnum.DRIFT, RunStatusEnum.SUCCESS, RunStatusEnum.NO_CHANGE,
    AnalysisDecisionEnum.DRIFT, AnalysisDecisionEnum.NO_CHANGE,
    ReviewStatusEnum.PENDING]

/-- Claim C4: the analyzer escalates exactly when the fast model's
drift score lies in the closed interval [0.45, 0.65] and a distinct smart
model is configured.  Part one: under that condition the smart model is
called (the calls are exactly fast then smart) and, whenever the smart
answer carries a decision and a score, they replace the fast result as
final.  Part two: outside that condition the call to the fast model is the
only one and its (defaulted) decision and score stand. -/
theorem escalation_rule (env : WorkflowEnv) (fastRes : LLMAnalysisResult)
    (hconf : env.openai_configured = true)
    (hfast : env.llm_analyst env.openai_model_fast = .ok fastRes) :
    ((0.45 ≤ fastRes.drift_score.getD 0 ∧ fastRes.drift_score.getD 0 ≤ 0.65 ∧
        env.openai_model_smart ≠ env.openai_model_fast) →
      (analyze_llm_phase env).1 = [env.openai_model_fast, env.openai_model_smart]
      ∧ ∀ smartRes d₂ s₂,
          env.llm_analyst env.openai_model_smart = .ok smartRes →
          smartRes.decision = some d₂ → smartRes.drift_score = some s₂ →
          (analyze_llm_phase env).2 = .ok (d₂, s₂, smartRes))
    ∧ (¬(0.45 ≤ fastRes.drift_score.getD 0 ∧ fastRes.drift_score.getD 0 ≤ 0.65 ∧
          env.openai_model_smart ≠ env.openai_model_fast) →
      (analyze_llm_phase env).1 = [env.openai_model_fast]
      ∧ (analyze_llm_phase env).2 =
          .ok (fastRes.decision.getD AnalysisDecisionEnum.NO_CHANGE,
               fastRes.drift_score.getD 0, fastRes)) := by
  constructor
  · intro hgz
    constructor
    · simp only [analyze_llm_phase, call_llm_analyst, hconf, if_true, hfast]
      rw [if_pos hgz]
      cases h2 : env.llm_analyst env.openai_model_smart <;> simp
    · intro smartRes d₂ s₂ hsmart hd hs
      simp only [analyze_llm_phase, call_llm_analyst, hconf, if_true, hfast]
      rw [if_pos hgz]
      simp [hsmart, hd, hs]
  · intro hgz
    simp only [analyze_llm_phase, call_llm_analyst, hconf, if_true, hfast]
    rw [if_neg hgz]
    simp

/-- Environment whose fast model answers the given drift score (and whose
smart model, if consulted, answers the same stubbed record). -/
def envFastScore (s : ℚ) : WorkflowEnv :=
  { envNoChange with llm_analyst := analystStub "drift" s }

/-- Witness for `escalation_rule` at the four boundary scores: 0.44 and
0.66 leave the fast call alone; 0.45 and 0.65 each trigger the smart
call, whose decision and score become final. -/
theorem escalation_rule_witness :
    (analyze_llm_phase (envFastScore 0.44)).1 = ["gpt-4o-mini"]
    ∧ (analyze_llm_phase (envFastScore 0.45)).1 = ["gpt-4o-mini", "gpt-4o"]
    ∧ (analyze_llm_phase (envFastScore 0.65)).1 = ["gpt-4o-mini", "gpt-4o"]
    ∧ (analyze_llm_phase (envFastScore 0.66)).1 = ["gpt-4o-mini"]
    ∧ (analyze_llm_phase (envFastScore 0.45)).2 =
        .ok ("drift", 0.45, { decision := some "drift", drift_score := some 0.45 }) := by
  refine ⟨?_, ?_, ?_, ?_, ?_⟩
  · exact ((escalation_rule (envFastScore 0.44) _ rfl rfl).2 (by norm_num +decide)).1
  · exact ((escalation_rule (envFastScore 0.45) _ rfl rfl).1 (by norm_num +decide)).1
  · exact ((escalation_rule (envFastScore 0.65) _ rfl rfl).1 (by norm_num +decide)).1
  · exact ((escalation_rule (envFastScore 0.66) _ rfl rfl).2 (by norm_num +decide)).1
  · exact ((escalation_rule (envFastScore 0.45) _ rfl rfl).1 (by norm_num +decide)).2
      _ _ _ rfl rfl rfl

/-- Claim C8: the database enforces `ck_drift_score_range` on every
`analyses` insert: a score inside [0, 1] is stored (appended unchanged,
not clamped), a score outside [0, 1] makes the insert fail with the
integrity error and nothing is stored, and the insert preserves the
invariant that every persisted Analysis row has its score in [0, 1]. -/
theorem drift_score_check_constraint (db : DB) (a : Analysis) :
    (0 ≤ a.drift_score ∧ a.drift_score ≤ 1 →
      insertAnalysis db a = .ok { db with analyses := db.analyses ++ [a] })
    ∧ (¬(0 ≤ a.drift_score ∧ a.drift_score ≤ 1) →
      insertAnalysis db a = .error "IntegrityError: ck_drift_score_range")
    ∧ ((∀ x ∈ db.analyses, 0 ≤ x.drift_score ∧ x.drift_score ≤ 1) →
      ∀ db', insertAnalysis db a = .ok db' →
        ∀ x ∈ db'.analyses, 0 ≤ x.drift_score ∧ x.drift_score ≤ 1) := by
  refine ⟨fun h => by simp [insertAnalysis, h], fun h => by simp [insertAnalysis, h], ?_⟩
  intro hall db' hok x hx
  unfold insertAnalysis at hok
  by_cases h : 0 ≤ a.drift_score ∧ a.drift_score ≤ 1
  · rw [if_pos h] at hok
    cases hok
    rcases List.mem_append.mp hx with hmem | hmem
    · exact hall x hmem
    · rw [List.mem_singleton.mp hmem]; exact h
  · rw [if_neg h] at hok
    exact absurd hok (by simp)

/-- An in-range analysis row. -/
def analysisOk : Analysis := ⟨1, 1, "gpt-4o-mini", 1/2, "drift", "r", [], [], []⟩

/-- An out-of-range analysis row (score 1.5). -/
def analysisBad : Analysis := ⟨1, 1, "gpt-4o-mini", 3/2, "drift", "r", [], [], []⟩

/-- Witness for `drift_score_check_constraint`: score 0.5 is stored as-is;
score 1.5 fails validation. -/
theorem drift_score_check_constraint_witness :
    insertAnalysis db₀ analysisOk = .ok { db₀ with analyses := db₀.analyses ++ [analysisOk] }
    ∧ insertAnalysis db₀ analysisBad = .error "IntegrityError: ck_drift_score_range" :=
  ⟨(drift_score_check_constraint db₀ analysisOk).1 (by norm_num [analysisOk]),
   (drift_score_check_constraint db₀ analysisBad).2.1 (by norm_num [analysisBad])⟩

/-- Helper: when a snapshot for (target, digest) already exists,
`ingest_target` returns it and performs no write. -/
theorem ingest_target_found (env : WorkflowEnv) (db : DB) (target_id : Nat)
    (t : Target) (scrape : ScrapeResultM) (s₀ : Snapshot)
    (htgt : db.targets.find? (fun t' => t'.id == target_id) = some t)
    (hscr : env.scrape_outcome = .ok scrape)
    (hfind : db.snapshots.find?
        (fun x => x.target_id == t.id && x.content_hash == scrape.content_hash) =
      some s₀) :
    ingest_target env db target_id = .ok (s₀, db) := by
  unfold ingest_target
  simp only [htgt, hscr, hfind]

/-- Helper: when no snapshot for (target, digest) exists, `ingest_target`
persists exactly one new row and returns it. -/
theorem ingest_target_new (env : WorkflowEnv) (db : DB) (target_id : Nat)
    (t : Target) (scrape : ScrapeResultM)
    (htgt : db.targets.find? (fun t' => t'.id == target_id) = some t)
    (hscr : env.scrape_outcome = .ok scrape)
    (hfind : db.snapshots.find?
        (fun x => x.target_id == t.id && x.content_hash == scrape.content_hash) =
      none) :
    ingest_target env db target_id =
      .ok (⟨db.snapshots.length + 1, t.id, env.now, scrape.content_hash,
            scrape.content_markdown⟩,
           { db with snapshots := db.snapshots ++
               [⟨db.snapshots.length + 1, t.id, env.now, scrape.content_hash,
                 scrape.content_markdown⟩] }) := by
  unfold ingest_target
  simp only [htgt, hscr, hfind]

/-- Claim C6: snapshot creation is idempotent per (target, content hash).
Part one: a second ingest of the same target under the same environment
(same fetched content, hence the same digest) returns the very same
snapshot row and leaves the store untouched.  Part two: when a snapshot
for (target, digest) already exists, ingest returns it without writing.
Part three: any one call grows the store by at most the returned row. -/
theorem ingest_target_idempotent (env : WorkflowEnv) (db db₁ : DB)
    (target_id : Nat) (s : Snapshot)
    (h : ingest_target env db target_id = .ok (s, db₁)) :
    ingest_target env db₁ target_id = .ok (s, db₁)
    ∧ (∀ t scrape s₀,
        db.targets.find? (fun t' => t'.id == target_id) = some t →
        env.scrape_outcome = .ok scrape →
        db.snapshots.find?
            (fun x => x.target_id == t.id && x.content_hash == scrape.content_hash) =
          some s₀ →
        ingest_target env db target_id = .ok (s₀, db))
    ∧ (db₁.snapshots = db.snapshots ∨ db₁.snapshots = db.snapshots ++ [s]) := by
  cases htgt : db.targets.find? (fun t' => t'.id == target_id) with
  | none =>
    have hbad : ingest_target env db target_id = .error "Target not found" := by
      unfold ingest_target
      simp only [htgt]
    rw [hbad] at h
    exact absurd h (by simp)
  | some t =>
    cases hscr : env.scrape_outcome with
    | error e =>
      have hbad : ingest_target env db target_id = .error e := by
        unfold ingest_target
        simp only [htgt, hscr]
      rw [hbad] at h
      exact absurd h (by simp)
    | ok scrape =>
      cases hfind : db.snapshots.find?
          (fun x => x.target_id == t.id && x.content_hash == scrape.content_hash) with
      | some existing =>
        have h' := ingest_target_found env db target_id t scrape existing htgt hscr hfind
        rw [h'] at h
        simp only [Except.ok.injEq, Prod.mk.injEq] at h
        obtain ⟨hs, hdb⟩ := h
        subst hs
        subst hdb
        refine ⟨h', ?_, Or.inl rfl⟩
        intro t' scrape' s₀ ht' hscr' hfind'
        cases ht'
        cases hscr'
        rw [hfind] at hfind'
        cases hfind'
        exact h'
      | none =>
        have h' := ingest_target_new env db target_id t scrape htgt hscr hfind
        rw [h'] at h
        simp only [Except.ok.injEq, Prod.mk.injEq] at h
        obtain ⟨hs, hdb⟩ := h
        subst hdb
        refine ⟨?_, ?_, Or.inr (by rw [← hs])⟩
        · have htgt₁ : ({ db with snapshots := db.snapshots ++
              [⟨db.snapshots.length + 1, t.id, env.now, scrape.content_hash,
                scrape.content_markdown⟩] } : DB).targets.find?
              (fun t' => t'.id == target_id) = some t := htgt
          have hfind₁ : ({ db with snapshots := db.snapshots ++
              [⟨db.snapshots.length + 1, t.id, env.now, scrape.content_hash,
                scrape.content_markdown⟩] } : DB).snapshots.find?
              (fun x => x.target_id == t.id && x.content_hash == scrape.content_hash) =
              some ⟨db.snapshots.length + 1, t.id, env.now, scrape.content_hash,
                scrape.content_markdown⟩ := by
            show (db.snapshots ++ [_]).find? _ = _
            rw [List.find?_append, hfind]
            simp [List.find?]
          have hsecond := ingest_target_found env
            { db with snapshots := db.snapshots ++
                [⟨db.snapshots.length + 1, t.id, env.now, scrape.content_hash,
                  scrape.content_markdown⟩] } target_id t scrape _ htgt₁ hscr hfind₁
          rw [hsecond, hs]
        · intro t' scrape' s₀ ht' hscr' hfind'
          cases ht'
          cases hscr'
          rw [hfind] at hfind'
          exact absurd hfind' (by simp)

/-- Witness for `ingest_target_idempotent`: a first ingest against the
empty store creates the snapshot row; the theorem then makes the second
call return the same row with the store unchanged. -/
theorem ingest_target_idempotent_witness :
    ingest_target envNoChange
        { db₀ with snapshots := [⟨1, 1, 7, "hash-1", "# Pricing"⟩] } 1 =
      .ok (⟨1, 1, 7, "hash-1", "# Pricing"⟩,
           { db₀ with snapshots := [⟨1, 1, 7, "hash-1", "# Pricing"⟩] }) :=
  (ingest_target_idempotent envNoChange db₀
    { db₀ with snapshots := [⟨1, 1, 7, "hash-1", "# Pricing"⟩] } 1
    ⟨1, 1, 7, "hash-1", "# Pricing"⟩
    (by norm_num +decide [ingest_target, envNoChange, db₀, target₀, scrapeOk,
      List.find?])).1

/-- A database predicate preserved by a node: whenever the node commits,
the predicate carries over to the committed database. -/
def NodePreserves (P : DB → Prop) (node : WorkflowState → DB → NodeResult) : Prop :=
  ∀ state db calls state' db',
    node state db = (calls, .ok (state', db')) → P db → P db'

/-- A node chain run by `run_nodes` preserves any predicate every node
preserves (failures keep the last committed database). -/
theorem run_nodes_preserves (P : DB → Prop) :
    ∀ (nodes : List (WorkflowState → DB → NodeResult)),
      (∀ n ∈ nodes, NodePreserves P n) →
      ∀ state db, P db → P (run_nodes nodes state db).db := by
  intro nodes
  induction nodes with
  | nil => intro _ state db h; simpa [run_nodes] using h
  | cons n rest ih =>
    intro hall state db h
    simp only [run_nodes]
    cases hn : n state db with
    | mk calls r =>
      cases r with
      | error e => simpa using h
      | ok p =>
        cases p with
        | mk state' db' =>
          have hP' : P db' :=
            hall n (List.mem_cons_self n rest) state db calls state' db' hn h
          simpa using ih (fun m hm => hall m (List.mem_cons_of_mem n hm)) state' db' hP'

/-- A successful `insertAnalysis` appends exactly the new row. -/
theorem insertAnalysis_ok (db : DB) (a : Analysis) (db' : DB)
    (h : insertAnalysis db a = .ok db') :
    db' = { db with analyses := db.analyses ++ [a] } := by
  unfold insertAnalysis at h
  by_cases hc : 0 ≤ a.drift_score ∧ a.drift_score ≤ 1
  · rw [if_pos hc] at h
    cases h
    rfl
  · rw [if_neg hc] at h
    exact absurd h (by simp)

/-- A successful `ingest_target` touches only the snapshots table. -/
theorem ingest_target_ok_tables (env : WorkflowEnv) (db : DB) (target_id : Nat)
    (s : Snapshot) (db' : DB)
    (h : ingest_target env db target_id = .ok (s, db')) :
    db'.targets = db.targets ∧ db'.runs = db.runs
    ∧ db'.analyses = db.analyses ∧ db'.briefings = db.briefings := by
  cases htgt : db.targets.find? (fun t' => t'.id == target_id) with
  | none =>
    have hbad : ingest_target env db target_id = .error "Target not found" := by
      unfold ingest_target
      simp only [htgt]
    rw [hbad] at h
    exact absurd h (by simp)
  | some t =>
    cases hscr : env.scrape_outcome with
    | error e =>
      have hbad : ingest_target env db target_id = .error e := by
        unfold ingest_target
        simp only [htgt, hscr]
      rw [hbad] at h
      exact absurd h (by simp)
    | ok scrape =>
      cases hfind : db.snapshots.find?
          (fun x => x.target_id == t.id && x.content_hash == scrape.content_hash) with
      | some existing =>
        rw [ingest_target_found env db target_id t scrape existing htgt hscr hfind] at h
        simp only [Except.ok.injEq, Prod.mk.injEq] at h
        rw [← h.2]
        exact ⟨rfl, rfl, rfl, rfl⟩
      | none =>
        rw [ingest_target_new env db target_id t scrape htgt hscr hfind] at h
        simp only [Except.ok.injEq, Prod.mk.injEq] at h
        rw [← h.2]
        exact ⟨rfl, rfl, rfl, rfl⟩

/-- The runs-table predicate of claim C9: every Run row has a null
`snapshot_id`. -/
def RunsSnapshotNull (db : DB) : Prop :=
  ∀ r ∈ db.runs, r.snapshot_id = none

/-- Node `node_fetch_history` creates its Run row with a null snapshot id. -/
theorem node_fetch_history_snapshot_null (env : WorkflowEnv) :
    NodePreserves RunsSnapshotNull (node_fetch_history env) := by
  intro state db calls state' db' hn h
  unfold node_fetch_history at hn
  cases htgt : db.targets.find? (fun t => t.id == state.target_id) with
  | none => rw [htgt] at hn; simp at hn
  | some t =>
    rw [htgt] at hn
    simp only [Prod.mk.injEq, Except.ok.injEq] at hn
    obtain ⟨-, -, hdb⟩ := hn
    subst hdb
    intro r hr
    rcases List.mem_append.mp hr with hmem | hmem
    · exact h r hmem
    · rw [List.mem_singleton.mp hmem]

/-- Node `node_scrape` only touches the snapshots table. -/
theorem node_scrape_snapshot_null (env : WorkflowEnv) :
    NodePreserves RunsSnapshotNull (node_scrape env) := by
  intro state db calls state' db' hn h
  unfold node_scrape at hn
  cases hing : ingest_target env db state.target_id with
  | error e => rw [hing] at hn; simp at hn
  | ok p =>
    obtain ⟨snap, dbi⟩ := p
    rw [hing] at hn
    simp only [Prod.mk.injEq, Except.ok.injEq] at hn
    obtain ⟨-, -, hdb⟩ := hn
    subst hdb
    have hruns := (ingest_target_ok_tables env db state.target_id snap dbi hing).2.1
    intro r hr
    rw [hruns] at hr
    exact h r hr

/-- Node `node_analyze` only touches the analyses table. -/
theorem node_analyze_snapshot_null (env : WorkflowEnv) :
    NodePreserves RunsSnapshotNull (node_analyze env) := by
  intro state db calls state' db' hn h
  unfold node_analyze at hn
  cases hsid : state.snapshot_id with
  | none => rw [hsid] at hn; simp at hn
  | some snapshot_id =>
    cases hrid : state.run_id with
    | none => rw [hsid, hrid] at hn; simp at hn
    | some run_id =>
      rw [hsid, hrid] at hn
      simp only [] at hn
      cases hfs : db.snapshots.find? (fun s => s.id == snapshot_id) with
      | none => rw [hfs] at hn; simp at hn
      | some snapshot =>
        rw [hfs] at hn
        simp only [] at hn
        cases hph : analyze_llm_phase env with
        | mk cs r =>
          rw [hph] at hn
          cases r with
          | error e => simp at hn
          | ok trip =>
            obtain ⟨dec, sc, res⟩ := trip
            simp only [] at hn
            cases hins : insertAnalysis db (mkAnalysis env db run_id dec sc res) with
            | error e => rw [hins] at hn; simp at hn
            | ok dbi =>
              rw [hins] at hn
              simp only [Prod.mk.injEq, Except.ok.injEq] at hn
              obtain ⟨-, -, hdb⟩ := hn
              subst hdb
              have hdbi := insertAnalysis_ok db _ dbi hins
              subst hdbi
              intro r hr
              exact h r hr

/-- Node `node_update_run_status` rewrites status and end time but copies
`snapshot_id` through. -/
theorem node_update_run_status_snapshot_null (env : WorkflowEnv) :
    NodePreserves RunsSnapshotNull (node_update_run_status env) := by
  intro state db calls state' db' hn h
  unfold node_update_run_status at hn
  cases hrid : state.run_id with
  | none => rw [hrid] at hn; simp at hn
  | some run_id =>
    rw [hrid] at hn
    simp only [] at hn
    cases hfr : db.runs.find? (fun r => r.id == run_id) with
    | none => rw [hfr] at hn; simp at hn
    | some run =>
      rw [hfr] at hn
      simp only [Prod.mk.injEq, Except.ok.injEq] at hn
      obtain ⟨-, -, hdb⟩ := hn
      subst hdb
      intro r hr
      simp only [List.mem_map] at hr
      obtain ⟨r₀, hr₀, hmap⟩ := hr
      by_cases hid : r₀.id == run_id
      · rw [if_pos hid] at hmap
        rw [← hmap]
        exact h r₀ hr₀
      · rw [if_neg hid] at hmap
        rw [← hmap]
        exact h r₀ hr₀

/-- Node `node_draft_briefing` only touches the briefings table. -/
theorem node_draft_briefing_snapshot_null (env : WorkflowEnv) :
    NodePreserves RunsSnapshotNull (node_draft_briefing env) := by
  intro state db calls state' db' hn h
  unfold node_draft_briefing at hn
  cases hsid : state.snapshot_id with
  | none => rw [hsid] at hn; simp at hn
  | some snapshot_id =>
    cases haid : state.analysis_id with
    | none => rw [hsid, haid] at hn; simp at hn
    | some analysis_id =>
      cases hrid : state.run_id with
      | none => rw [hsid, haid, hrid] at hn; simp at hn
      | some run_id =>
        rw [hsid, haid, hrid] at hn
        simp only [] at hn
        cases hfs : db.snapshots.find? (fun s => s.id == snapshot_id) with
        | none =>
          rw [hfs] at hn
          cases hfa : db.analyses.find? (fun a => a.id == analysis_id) with
          | none => rw [hfa] at hn; simp at hn
          | some analysis => rw [hfa] at hn; simp at hn
        | some snapshot =>
          rw [hfs] at hn
          cases hfa : db.analyses.find? (fun a => a.id == analysis_id) with
          | none => rw [hfa] at hn; simp at hn
          | some analysis =>
            rw [hfa] at hn
            simp only [] at hn
            cases hft : db.targets.find? (fun t => t.id == snapshot.target_id) with
            | none => rw [hft] at hn; simp at hn
            | some target =>
              rw [hft] at hn
              simp only [] at hn
              cases hcfg : env.openai_configured with
              | false => rw [hcfg] at hn; simp at hn
              | true =>
                rw [hcfg] at hn
                simp only [eq_self_iff_true, if_true] at hn
                cases hbr : env.llm_briefing with
                | error e => rw [hbr] at hn; simp at hn
                | ok data =>
                  rw [hbr] at hn
                  simp only [Prod.mk.injEq, Except.ok.injEq] at hn
                  obtain ⟨-, -, hdb⟩ := hn
                  subst hdb
                  intro r hr
                  exact h r hr

/-- Node `node_human_gate` writes nothing. -/
theorem node_human_gate_snapshot_null (env : WorkflowEnv) :
    NodePreserves RunsSnapshotNull (node_human_gate env) := by
  intro state db calls state' db' hn h
  unfold node_human_gate at hn
  cases hbid : state.briefing_id with
  | none => rw [hbid] at hn; simp at hn
  | some b =>
    rw [hbid] at hn
    simp only [Prod.mk.injEq, Except.ok.injEq] at hn
    obtain ⟨-, -, hdb⟩ := hn
    subst hdb
    exact h

/-- Claim C9: the `snapshot_id` column of a Run stays null for the whole
lifetime of the Run: `node_fetch_history` creates the Run row with
`snapshot_id=None`, `node_scrape` stores the ingested snapshot's id only
in the in-memory `WorkflowState`, and no node ever writes it back — so a
store whose Run rows all have null `snapshot_id` still has only null
`snapshot_id` rows after any invocation of `run_workflow_for_target`,
whatever its environment or outcome. -/
theorem run_snapshot_id_never_set (env : WorkflowEnv) (db : DB)
    (target_id : Nat) (h : RunsSnapshotNull db) :
    RunsSnapshotNull (run_workflow_for_target env db target_id).db := by
  unfold run_workflow_for_target
  refine run_nodes_preserves RunsSnapshotNull (workflow_nodes env) ?_ _ db h
  intro n hn
  simp only [workflow_nodes, List.mem_cons, List.not_mem_nil, or_false] at hn
  rcases hn with rfl | rfl | rfl | rfl | rfl | rfl
  · exact node_fetch_history_snapshot_null env
  · exact node_scrape_snapshot_null env
  · exact node_analyze_snapshot_null env
  · exact node_update_run_status_snapshot_null env
  · exact node_draft_briefing_snapshot_null env
  · exact node_human_gate_snapshot_null env

/-- Witness for `run_snapshot_id_never_set`: the fixture store (no runs at
all) satisfies the hypothesis, and after a full successful pipeline
invocation every Run row still carries a null `snapshot_id`. -/
theorem run_snapshot_id_never_set_witness :
    RunsSnapshotNull db₀
    ∧ RunsSnapshotNull (run_workflow_for_target envNoChange db₀ 1).db :=
  ⟨by intro r hr; simp [db₀] at hr,
   run_snapshot_id_never_set envNoChange db₀ 1
     (by intro r hr; simp [db₀] at hr)⟩

/-- Environment of a run whose analyst answers the unrecognized decision
string "rebrand" with score 0.2. -/
def envWeird : WorkflowEnv :=
  { envNoChange with llm_analyst := analystStub "rebrand" 0.2 }

/-- Claim C10: a present-but-unrecognized decision string falls through
both comparisons of `node_update_run_status` into the `else` branch: the
Run is finalized (ended_at set) with status `success` — outside the
no-change/drift/error mapping.  Part one states this for any state whose
decision is neither `"drift"` nor `"no_change"`; the remaining parts
evaluate a full pipeline run whose analyst answers "rebrand": the
Analysis row stores the decision string unchanged and the Run ends with
status `success` and `ended_at` set. -/
theorem unrecognized_decision_yields_success (env : WorkflowEnv)
    (state : WorkflowState) (db : DB) (run_id : Nat) (run : Run) (d : String)
    (hrid : state.run_id = some run_id)
    (hfound : db.runs.find? (fun r => r.id == run_id) = some run)
    (hdec : state.decision = some d)
    (hd1 : d ≠ AnalysisDecisionEnum.DRIFT)
    (hd2 : d ≠ AnalysisDecisionEnum.NO_CHANGE) :
    node_update_run_status env state db =
      ([], .ok (state,
        { db with runs := db.runs.map (fun r =>
            if r.id == run_id then
              { r with ended_at := some env.now, status := RunStatusEnum.SUCCESS }
            else r) }))
    ∧ (run_workflow_for_target envWeird db₀ 1).db.analyses.map
        Analysis.decision = ["rebrand"]
    ∧ (run_workflow_for_target envWeird db₀ 1).db.runs.map Run.status =
        [RunStatusEnum.SUCCESS]
    ∧ (run_workflow_for_target envWeird db₀ 1).db.runs.map Run.ended_at =
        [some 7] := by
  refine ⟨?_, ?_⟩
  · unfold node_update_run_status
    rw [hrid]
    simp only [] 
    rw [hfound]
    simp only [hdec, hd1, hd2, Option.some.injEq, if_false]
  · norm_num +decide [run_workflow_for_target, workflow_nodes, run_nodes,
      node_fetch_history, node_scrape, node_analyze, mkAnalysis,
      node_update_run_status, node_draft_briefing, node_human_gate,
      ingest_target, call_llm_analyst, analyze_llm_phase, insertAnalysis,
      analystStub, briefingStub, envWeird, envNoChange, db₀, target₀,
      scrapeOk, orText, List.find?, RunStatusEnum.SUCCESS,
      RunStatusEnum.DRIFT, RunStatusEnum.NO_CHANGE,
      AnalysisDecisionEnum.DRIFT, AnalysisDecisionEnum.NO_CHANGE,
      ReviewStatusEnum.PENDING]

/-- A Run row as `node_fetch_history` creates it. -/
def runW : Run := ⟨1, 1, none, 7, none, "success", none, 1⟩

/-- A workflow state carrying the unrecognized decision "rebrand". -/
def stateW : WorkflowState :=
  { target_id := 1, run_id := some 1, decision := some "rebrand" }

/-- Fixture store holding the one Run row. -/
def dbW : DB := { db₀ with runs := [runW] }

/-- Witness for `unrecognized_decision_yields_success`: with decision
"rebrand", the Run row is finalized to status `success` with `ended_at`
set. -/
theorem unrecognized_decision_yields_success_witness :
    node_update_run_status envWeird stateW dbW =
      ([], .ok (stateW,
        { dbW with runs := [⟨1, 1, none, 7, some 7, RunStatusEnum.SUCCESS, none, 1⟩] })) := by
  have h := (unrecognized_decision_yields_success envWeird stateW dbW 1 runW
    "rebrand" rfl rfl rfl (by decide) (by decide)).1
  rw [h]
  norm_num +decide [dbW, runW, db₀, envWeird, envNoChange, RunStatusEnum.SUCCESS]
